/-
Verification of the pykuang network scanner against its specification.

The Python modules under pykuang/ (blacklist.py, cache.py, database.py,
generator.py, scanner.py, xfr.py, model.py) are shallowly embedded below:
pure functions become Lean functions, stateful code threads its state
explicitly, fallible code returns `Except`, and the unbounded worker loops
are driven by explicit fuel or by the stream of random draws they consume.
Python exceptions are represented by the `PyErr` type; Python's dynamic
distinction between `str` and `bytes` at the LMDB boundary is represented
by the `LmdbKey` type.

The repository's current model.py is a stale revision (it lacks the
`Service` and `XFR` classes and the `Host` fields that database.py,
generator.py, scanner.py and xfr.py import and use); where a definition can
only come from that missing module it is modelled from the specification
and marked `Modelled from the spec:` in its doc comment.  Everything else
is translated from the Python source.
-/
import Mathlib

set_option maxRecDepth 16384

/-- Python exceptions that the embedded code can surface. -/
inductive PyErr where
  | typeError
  | attributeError
  | valueError
  | keyError
  | txError
  | integrityError
  | operationalError
  | dbError
  | timeoutError
deriving DecidableEq, Repr

/-! ## cache.py -/

/-- `CacheItem` from cache.py: a cached string plus an optional expiry
timestamp (timestamps are modelled as natural numbers). -/
structure CacheItem where
  item : String
  expires : Option Nat := none
deriving DecidableEq, Repr

/-- `CacheItem.valid` from cache.py: the item is valid iff it has no expiry
or the expiry lies strictly in the future. -/
def CacheItem.valid (it : CacheItem) (now : Nat) : Bool :=
  match it.expires with
  | none => true
  | some e => now < e

/-- A key handed to the LMDB layer.  py-lmdb only accepts bytes-like keys;
`.bytes s` stands for the UTF-8 encoding of the string `s` (the encoding is
injective, so the bytes are identified with the string they encode), while
`.str s` is a Python `str` passed where bytes are required, which raises
`TypeError`. -/
inductive LmdbKey where
  | bytes (s : String)
  | str (s : String)
deriving DecidableEq, Repr

/-- The contents of one LMDB named database: an association of (decoded)
keys to cache items. -/
abbrev CacheStore := List (String × CacheItem)

/-- `lmdb.Transaction.get`: bytes keys are looked up, a `str` key raises
`TypeError`. -/
def lmdbGet (st : CacheStore) (k : LmdbKey) : Except PyErr (Option CacheItem) :=
  match k with
  | .bytes s => .ok (st.lookup s)
  | .str _ => .error .typeError

/-- `lmdb.Transaction.delete`: bytes keys are removed, a `str` key raises
`TypeError`. -/
def lmdbDel (st : CacheStore) (k : LmdbKey) : Except PyErr CacheStore :=
  match k with
  | .bytes s => .ok (st.filter (fun e => ¬ e.1 = s))
  | .str _ => .error .typeError

/-- `lmdb.Transaction.put` with `overwrite=True`: bytes keys are stored, a
`str` key raises `TypeError`. -/
def lmdbPut (st : CacheStore) (k : LmdbKey) (it : CacheItem) : Except PyErr CacheStore :=
  match k with
  | .bytes s => .ok ((s, it) :: st.filter (fun e => ¬ e.1 = s))
  | .str _ => .error .typeError

/-- `Tx.__getitem__` from cache.py: `tx.get(key.encode())`; a missing key
yields `None`; a valid item yields its value; an expired item yields `None`,
but in a read-write transaction the code first runs `self.tx.delete(key)` —
passing the *raw string* `key`, not `key.encode()`. -/
def Tx.getitem (rw : Bool) (now : Nat) (st : CacheStore) (key : String) :
    Except PyErr (Option String × CacheStore) :=
  match lmdbGet st (.bytes key) with
  | .error e => .error e
  | .ok none => .ok (none, st)
  | .ok (some it) =>
    if it.valid now then .ok (some it.item, st)
    else if rw then
      match lmdbDel st (.str key) with
      | .error e => .error e
      | .ok st' => .ok (none, st')
    else .ok (none, st)

/-- `Tx.__contains__` from cache.py: `tx.get(key.encode())`; a missing key
yields `False`; in a read-write transaction an expired item is deleted via
`self.tx.delete(key.encode())`; the item's validity is returned. -/
def Tx.containsKey (rw : Bool) (now : Nat) (st : CacheStore) (key : String) :
    Except PyErr (Bool × CacheStore) :=
  match lmdbGet st (.bytes key) with
  | .error e => .error e
  | .ok none => .ok (false, st)
  | .ok (some it) =>
    if rw && !(it.valid now) then
      match lmdbDel st (.bytes key) with
      | .error e => .error e
      | .ok st' => .ok (it.valid now, st')
    else .ok (it.valid now, st)

/-- `Tx.__setitem__` from cache.py: read-only transactions raise `TxError`;
otherwise the value is stored under `key.encode()` with expiry
`now + ttl` when the owning `CacheDB` has a TTL (`none` otherwise). -/
def Tx.setitem (rw : Bool) (now : Nat) (ttl : Option Nat) (st : CacheStore)
    (key val : String) : Except PyErr CacheStore :=
  if !rw then .error .txError
  else lmdbPut st (.bytes key) { item := val, expires := ttl.map (now + ·) }

/-- A read-write store holding one entry for key "k" that expired at time 5. -/
def c9store : CacheStore := [("k", { item := "v", expires := some 5 })]

/-- C9: at time 10 (entry expired at 5): `__contains__` returns false in both
transaction modes, deleting the entry exactly in the read-write mode;
`__getitem__` in a read-only transaction returns absent leaving the entry in
place; but `__getitem__` in a read-write transaction raises `TypeError`
instead of deleting the entry and returning absent, because the delete is
called with the raw `str` key. -/
theorem c9_expired_entry_eval :
    Tx.containsKey true 10 c9store "k" = .ok (false, []) ∧
    Tx.containsKey false 10 c9store "k" = .ok (false, c9store) ∧
    Tx.getitem false 10 c9store "k" = .ok (none, c9store) ∧
    Tx.getitem true 10 c9store "k" = .error .typeError := by
  refine ⟨rfl, rfl, rfl, rfl⟩

/-! ## Stable sorting, as performed by Python's `list.sort(key=..., reverse=True)`

Python's sort is stable also with `reverse=True`: elements compare by the
key in descending order and ties keep their original relative order.  It is
modelled by a stable insertion sort. -/

/-- Insert `x` (an element originally *earlier* than everything in `l`) into
the descending-by-key list `l`: `x` passes elements with strictly larger key
and stops in front of the first element whose key is `≤` its own. -/
def insertDescBy (key : α → Nat) (x : α) : List α → List α
  | [] => [x]
  | y :: ys => if key y ≤ key x then x :: y :: ys else y :: insertDescBy key x ys

/-- Stable descending sort by a natural-number key. -/
def sortDescBy (key : α → Nat) (l : List α) : List α :=
  l.foldr (insertDescBy key) []


theorem insertDescBy_perm (key : α → Nat) (x : α) (l : List α) :
    (insertDescBy key x l).Perm (x :: l) := by
  induction l with
  | nil => simp [insertDescBy]
  | cons y ys ih =>
    by_cases hle : key y ≤ key x
    · rw [insertDescBy, if_pos hle]
    · rw [insertDescBy, if_neg hle]
      exact (ih.cons y).trans (List.Perm.swap x y ys)

theorem sortDescBy_perm (key : α → Nat) (l : List α) :
    (sortDescBy key l).Perm l := by
  induction l with
  | nil => simp [sortDescBy]
  | cons x xs ih =>
    exact (insertDescBy_perm key x (sortDescBy key xs)).trans (ih.cons x)

theorem mem_insertDescBy (key : α → Nat) (x : α) (l : List α) (z : α)
    (h : z ∈ insertDescBy key x l) : z = x ∨ z ∈ l := by
  have := (insertDescBy_perm key x l).mem_iff.mp h
  simpa using this

theorem insertDescBy_pairwise (key : α → Nat) (x : α) (l : List α)
    (h : l.Pairwise (fun a b => key b ≤ key a)) :
    (insertDescBy key x l).Pairwise (fun a b => key b ≤ key a) := by
  induction l with
  | nil => simp [insertDescBy]
  | cons y ys ih =>
    rw [List.pairwise_cons] at h
    by_cases hle : key y ≤ key x
    · rw [insertDescBy, if_pos hle, List.pairwise_cons]
      constructor
      · intro z hz
        rw [List.mem_cons] at hz
        rcases hz with rfl | hz
        · exact hle
        · exact le_trans (h.1 z hz) hle
      · exact List.pairwise_cons.mpr h
    · rw [insertDescBy, if_neg hle, List.pairwise_cons]
      constructor
      · intro z hz
        rcases mem_insertDescBy key x ys z hz with rfl | hz'
        · exact le_of_not_le hle
        · exact h.1 z hz'
      · exact ih h.2

theorem sortDescBy_pairwise (key : α → Nat) (l : List α) :
    (sortDescBy key l).Pairwise (fun a b => key b ≤ key a) := by
  induction l with
  | nil => simp [sortDescBy]
  | cons x xs ih => exact insertDescBy_pairwise key x _ ih

theorem insertDescBy_filter_key (key : α → Nat) (x : α) (l : List α) (c : Nat) :
    (insertDescBy key x l).filter (fun a => key a == c) =
      if key x = c then x :: l.filter (fun a => key a == c)
      else l.filter (fun a => key a == c) := by
  induction l with
  | nil =>
    by_cases h : key x = c <;>
      simp [insertDescBy, List.filter_cons, h]
  | cons y ys ih =>
    by_cases hle : key y ≤ key x
    · rw [insertDescBy, if_pos hle]
      by_cases h : key x = c <;> simp [List.filter_cons, h]
    · rw [insertDescBy, if_neg hle]
      by_cases h : key x = c
      · have hy : ¬ (key y = c) := fun hyc => hle (le_of_eq (hyc.trans h.symm))
        simp [List.filter_cons, ih, h, hy]
      · by_cases hyc : key y = c <;> simp [List.filter_cons, ih, h, hyc]

/-- Stability of `sortDescBy`: for every key value `c`, the elements whose
key equals `c` appear in the output in the same order as in the input. -/
theorem sortDescBy_filter_key (key : α → Nat) (l : List α) (c : Nat) :
    (sortDescBy key l).filter (fun a => key a == c) =
      l.filter (fun a => key a == c) := by
  induction l with
  | nil => simp [sortDescBy]
  | cons x xs ih =>
    show (insertDescBy key x (sortDescBy key xs)).filter _ = _
    rw [insertDescBy_filter_key]
    by_cases h : key x = c <;> simp [List.filter_cons, h, ih]

/-- The linear scan shared by `NameBlacklist.is_match` and
`IPBlacklist.is_match`: walk the item list, and at the *first* item for which
`hit` holds, replace it by its bumped version (hit counter incremented) and
report success; items visited before the hit are unchanged (their `is_match`
returned `False` without mutating them). -/
def scanBump (hit : α → Bool) (bump : α → α) : List α → Option (List α)
  | [] => none
  | x :: xs => if hit x then some (bump x :: xs)
               else (scanBump hit bump xs).map (x :: ·)

theorem scanBump_eq_some (hit : α → Bool) (bump : α → α) (l l' : List α)
    (h : scanBump hit bump l = some l') :
    ∃ i x, l.get? i = some x ∧ hit x = true ∧ l' = l.set i (bump x) := by
  induction l generalizing l' with
  | nil => simp [scanBump] at h
  | cons y ys ih =>
    rw [scanBump] at h
    by_cases hy : hit y
    · rw [if_pos hy] at h
      exact ⟨0, y, rfl, hy, by simpa using h.symm⟩
    · rw [if_neg hy] at h
      rcases Option.map_eq_some'.mp h with ⟨ys', hys', rfl⟩
      rcases ih ys' hys' with ⟨i, x, hget, hhit, rfl⟩
      exact ⟨i + 1, x, hget, hhit, rfl⟩

theorem scanBump_eq_none (hit : α → Bool) (bump : α → α) (l : List α)
    (h : scanBump hit bump l = none) : ∀ x ∈ l, hit x = false := by
  induction l with
  | nil => simp
  | cons y ys ih =>
    rw [scanBump] at h
    by_cases hy : hit y
    · rw [if_pos hy] at h
      exact absurd h (by simp)
    · rw [if_neg hy] at h
      intro x hx
      rw [List.mem_cons] at hx
      rcases hx with rfl | hx
      · exact Bool.eq_false_iff.mpr hy
      · exact ih (by simpa using h) x hx

/-! ## blacklist.py -/

/-- An IP address as handed around by the Python code: either an
`IPv4Address` (32-bit value) or an `IPv6Address` (128-bit value). -/
inductive IPAddr where
  | v4 (n : Nat)
  | v6 (n : Nat)
deriving DecidableEq, Repr

/-- An `ip_network` value: IP version, (aligned) network base address and
prefix length. -/
structure IPNet where
  version : Nat
  base : Nat
  plen : Nat
deriving DecidableEq, Repr

/-- Python's `addr in net` for an address object: `False` when the versions
differ, otherwise a prefix comparison. -/
def IPNet.containsAddr (net : IPNet) (a : IPAddr) : Bool :=
  match a with
  | .v4 n => net.version == 4 && (n / 2 ^ (32 - net.plen) == net.base / 2 ^ (32 - net.plen))
  | .v6 n => net.version == 6 && (n / 2 ^ (128 - net.plen) == net.base / 2 ^ (128 - net.plen))

/-- `NameBlacklistItem` from blacklist.py: a compiled case-insensitive
pattern plus a hit counter.  The regex engine is abstracted: `pat name` is
the outcome of `self.pat.search(name) is not None`. -/
structure NameBlacklistItem where
  pat : String → Bool
  hit_cnt : Nat := 0

/-- `NameBlacklistItem.is_match`'s mutation: increment the hit counter. -/
def NameBlacklistItem.bump (it : NameBlacklistItem) : NameBlacklistItem :=
  { it with hit_cnt := it.hit_cnt + 1 }

/-- `NameBlacklist` from blacklist.py. -/
structure NameBlacklist where
  patterns : List NameBlacklistItem

/-- `NameBlacklist.is_match` from blacklist.py: scan the patterns in order;
on the first hit the item's counter is incremented, the list is re-sorted
descending by hit count (`self.patterns.sort(key=..., reverse=True)`) and
`True` is returned; if nothing matches, the list is untouched and `False`
is returned. -/
def NameBlacklist.is_match (bl : NameBlacklist) (name : String) :
    Bool × NameBlacklist :=
  match scanBump (fun it => it.pat name) NameBlacklistItem.bump bl.patterns with
  | some l => (true, ⟨sortDescBy (fun it => it.hit_cnt) l⟩)
  | none => (false, bl)

/-- `IPBlacklistItem` from blacklist.py: a network range plus a hit counter. -/
structure IPBlacklistItem where
  net : IPNet
  hit_cnt : Nat := 0
deriving DecidableEq, Repr

/-- `IPBlacklistItem.is_match`'s mutation: increment the hit counter. -/
def IPBlacklistItem.bump (it : IPBlacklistItem) : IPBlacklistItem :=
  { it with hit_cnt := it.hit_cnt + 1 }

/-- `IPBlacklist` from blacklist.py. -/
structure IPBlacklist where
  networks : List IPBlacklistItem
deriving DecidableEq, Repr

/-- The body of `IPBlacklist.is_match` once `addr` is an address object:
scan the networks in order; on the first hit the item's counter is
incremented, the list is re-sorted descending by hit count and `True` is
returned; otherwise the list is untouched and `False` is returned. -/
def IPBlacklist.is_match_addr (bl : IPBlacklist) (a : IPAddr) :
    Bool × IPBlacklist :=
  match scanBump (fun it => it.net.containsAddr a) IPBlacklistItem.bump bl.networks with
  | some l => (true, ⟨sortDescBy (fun it => it.hit_cnt) l⟩)
  | none => (false, bl)

/-- `forbidden_networks` from blacklist.py (the 14 IANA reserved blocks),
with the base addresses written out as octets. -/
def mkNet4 (a b c d plen : Nat) : IPNet :=
  { version := 4, base := ((a * 256 + b) * 256 + c) * 256 + d, plen := plen }

def forbidden_networks : List IPNet :=
  [ mkNet4 0 0 0 0 8
  , mkNet4 10 0 0 0 8
  , mkNet4 127 0 0 0 8
  , mkNet4 169 254 0 0 16
  , mkNet4 172 16 0 0 12
  , mkNet4 192 0 2 0 24
  , mkNet4 192 88 99 0 24
  , mkNet4 192 168 0 0 16
  , mkNet4 198 18 0 0 15
  , mkNet4 198 51 100 0 24
  , mkNet4 203 0 113 0 24
  , mkNet4 224 0 0 0 4
  , mkNet4 240 0 0 0 4
  , mkNet4 255 0 0 0 8 ]

/-- `IPBlacklist.default` from blacklist.py. -/
def IPBlacklist.defaultList : IPBlacklist :=
  ⟨forbidden_networks.map (fun n => { net := n })⟩

/-! ### `ipaddress.ip_address` on strings

`IPBlacklist.is_match` accepts `str` arguments and parses them with
`ip_address`.  The parser below models the standard library's acceptance of
dotted-quad IPv4 and colon-hex IPv6 (with `::` compression, an optional
embedded trailing IPv4, and an optional non-empty `%scope`). -/

/-- Split a character list at every occurrence of `c` (like `str.split`). -/
def splitCh (c : Char) : List Char → List (List Char)
  | [] => [[]]
  | x :: xs =>
    match splitCh c xs with
    | [] => [[]]
    | h :: t => if x = c then [] :: h :: t else (x :: h) :: t

/-- A decimal numeral (at least one digit, digits only). -/
def decNat? (l : List Char) : Option Nat :=
  if l.isEmpty then none
  else if l.all (·.isDigit) then
    some (l.foldl (fun acc c => acc * 10 + (c.toNat - 48)) 0)
  else none

/-- One IPv4 octet: 1–3 decimal digits, value ≤ 255, no leading zero. -/
def octet? (l : List Char) : Option Nat :=
  if l.length > 3 then none
  else if l.length > 1 ∧ l.head? = some '0' then none
  else
    match decNat? l with
    | some n => if n ≤ 255 then some n else none
    | none => none

/-- Dotted-quad IPv4 parsing, producing the 32-bit value. -/
def parseIPv4? (l : List Char) : Option Nat :=
  match (splitCh '.' l).mapM octet? with
  | some [a, b, c, d] => some (((a * 256 + b) * 256 + c) * 256 + d)
  | _ => none

/-- The value of one hexadecimal digit, if any. -/
def hexDigit? (c : Char) : Option Nat :=
  if c.isDigit then some (c.toNat - 48)
  else if 'a' ≤ c ∧ c ≤ 'f' then some (c.toNat - 87)
  else if 'A' ≤ c ∧ c ≤ 'F' then some (c.toNat - 55)
  else none

/-- One IPv6 group: 1–4 hex digits. -/
def hexGroup? (l : List Char) : Option Nat :=
  if l.isEmpty ∨ l.length > 4 then none
  else l.foldl (fun acc c => do
    let a ← acc
    let d ← hexDigit? c
    pure (a * 16 + d)) (some 0)

/-- Turn the colon-separated components into 16-bit groups; the final
component may be an embedded dotted-quad IPv4, contributing two groups. -/
def partsToGroups : List (List Char) → Option (List Nat)
  | [] => some []
  | [last] =>
    if last.contains '.' then
      (parseIPv4? last).map (fun n => [n / 65536, n % 65536])
    else (hexGroup? last).map ([·])
  | p :: rest => do
    let g ← hexGroup? p
    let gs ← partsToGroups rest
    pure (g :: gs)

/-- Locate a single interior or trailing `::` gap among the colon-separated
components (the leading-`::` shape is handled by `splitAtGap`). -/
def splitMid (acc : List (List Char)) : List (List Char) → Option (List (List Char) × List (List Char))
  | [] => none
  | [] :: rest =>
    if acc.isEmpty then none
    else
      match rest with
      | [[]] => some (acc.reverse, [])
      | _ => if ¬ rest.isEmpty ∧ rest.all (fun p => ¬ p.isEmpty)
             then some (acc.reverse, rest) else none
  | p :: rest => splitMid (p :: acc) rest

/-- Split the component list of an address containing `::` into the groups
before and after the gap, rejecting malformed shapes. -/
def splitAtGap : List (List Char) → Option (List (List Char) × List (List Char))
  | [] :: [] :: rest =>
    match rest with
    | [[]] => some ([], [])
    | _ => if ¬ rest.isEmpty ∧ rest.all (fun p => ¬ p.isEmpty)
           then some ([], rest) else none
  | parts => splitMid [] parts

/-- The 128-bit value of a full list of eight 16-bit groups. -/
def groupsVal (gs : List Nat) : Nat :=
  gs.foldl (fun acc g => acc * 65536 + g) 0

/-- Colon-hex IPv6 parsing (after any `%scope` was stripped). -/
def parseIPv6? (l : List Char) : Option Nat :=
  let parts := splitCh ':' l
  if parts.all (fun p => ¬ p.isEmpty) then do
    let gs ← partsToGroups parts
    if gs.length = 8 then some (groupsVal gs) else none
  else
    match splitAtGap parts with
    | none => none
    | some (before, after) => do
      let g1 ← partsToGroups before
      let g2 ← partsToGroups after
      if g1.length + g2.length ≤ 7 then
        some (groupsVal (g1 ++ List.replicate (8 - g1.length - g2.length) 0 ++ g2))
      else none

/-- Strip an optional `%scope` suffix (IPv6 scoped addresses): the scope id
must be non-empty and `%` may occur at most once. -/
def stripScope (l : List Char) : Option (List Char) :=
  match splitCh '%' l with
  | [main] => some main
  | [main, zone] => if zone.isEmpty then none else some main
  | _ => none

/-- `ipaddress.ip_address` on a string: try IPv4, then IPv6. -/
def ip_address? (s : String) : Option IPAddr :=
  match parseIPv4? s.data with
  | some n => some (.v4 n)
  | none =>
    match stripScope s.data with
    | none => none
    | some main => (parseIPv6? main).map .v6

/-- The argument of `IPBlacklist.is_match`, whose Python signature is
`Union[str, IPv4Address, IPv6Address]`. -/
inductive PyIPArg where
  | ip (a : IPAddr)
  | raw (s : String)

/-- `IPBlacklist.is_match` from blacklist.py, including its `str` branch:
a string is parsed with `ip_address`; on `ValueError` the failure is merely
logged and `addr` remains the string, so the loop then evaluates
`addr in self.net` with a `str` operand — `_BaseNetwork.__contains__`
accesses `other._version`, raising `AttributeError` — unless the network
list is empty, in which case the loop body never runs and `False` is
returned. -/
def IPBlacklist.is_match (bl : IPBlacklist) (arg : PyIPArg) :
    Except PyErr (Bool × IPBlacklist) :=
  match arg with
  | .ip a => .ok (bl.is_match_addr a)
  | .raw s =>
    match ip_address? s with
    | some a => .ok (bl.is_match_addr a)
    | none =>
      match bl.networks with
      | [] => .ok (false, bl)
      | _ :: _ => .error .attributeError

/-- C8: for both matchers, a call that returns `true` has incremented the
matched item's hit counter (the result is a permutation of the input with
one matching item bumped) and has left the owning list sorted in
non-increasing order of hit count, stably among ties (for every count `c`,
the items with count `c` keep their input order). -/
theorem c8_match_resorts_by_hit_count (blN : NameBlacklist) (name : String)
    (blI : IPBlacklist) (a : IPAddr) :
    ((blN.is_match name).fst = true →
      (blN.is_match name).snd.patterns.Pairwise (fun x y => y.hit_cnt ≤ x.hit_cnt) ∧
      ∃ i it, blN.patterns.get? i = some it ∧ it.pat name = true ∧
        ((blN.is_match name).snd.patterns.Perm (blN.patterns.set i it.bump) ∧
         ∀ c, (blN.is_match name).snd.patterns.filter (fun x => x.hit_cnt == c) =
              (blN.patterns.set i it.bump).filter (fun x => x.hit_cnt == c))) ∧
    ((blI.is_match_addr a).fst = true →
      (blI.is_match_addr a).snd.networks.Pairwise (fun x y => y.hit_cnt ≤ x.hit_cnt) ∧
      ∃ i it, blI.networks.get? i = some it ∧ it.net.containsAddr a = true ∧
        ((blI.is_match_addr a).snd.networks.Perm (blI.networks.set i it.bump) ∧
         ∀ c, (blI.is_match_addr a).snd.networks.filter (fun x => x.hit_cnt == c) =
              (blI.networks.set i it.bump).filter (fun x => x.hit_cnt == c))) := by
  constructor
  · intro htrue
    unfold NameBlacklist.is_match at *
    cases hscan : scanBump (fun it => it.pat name) NameBlacklistItem.bump blN.patterns with
    | none => rw [hscan] at htrue; simp at htrue
    | some l =>
      rcases scanBump_eq_some _ _ _ _ hscan with ⟨i, it, hget, hhit, rfl⟩
      exact ⟨sortDescBy_pairwise _ _, i, it, hget, hhit,
        sortDescBy_perm _ _, fun c => sortDescBy_filter_key _ _ c⟩
  · intro htrue
    unfold IPBlacklist.is_match_addr at *
    cases hscan : scanBump (fun it => it.net.containsAddr a) IPBlacklistItem.bump blI.networks with
    | none => rw [hscan] at htrue; simp at htrue
    | some l =>
      rcases scanBump_eq_some _ _ _ _ hscan with ⟨i, it, hget, hhit, rfl⟩
      exact ⟨sortDescBy_pairwise _ _, i, it, hget, hhit,
        sortDescBy_perm _ _, fun c => sortDescBy_filter_key _ _ c⟩

/-- A one-item name blacklist whose pattern matches everything. -/
def c8blN : NameBlacklist := ⟨[{ pat := fun _ => true }]⟩

/-- Witness for C8 at concrete inputs: a matching name lookup and the
default network blacklist queried with 10.0.0.1 (= 167772161). -/
theorem c8_match_resorts_by_hit_count_witness :
    (c8blN.is_match "dyn-host").fst = true ∧
    (c8blN.is_match "dyn-host").snd.patterns.Pairwise (fun x y => y.hit_cnt ≤ x.hit_cnt) ∧
    (IPBlacklist.defaultList.is_match_addr (.v4 167772161)).fst = true ∧
    (IPBlacklist.defaultList.is_match_addr (.v4 167772161)).snd.networks.Pairwise
      (fun x y => y.hit_cnt ≤ x.hit_cnt) :=
  ⟨rfl,
   ((c8_match_resorts_by_hit_count c8blN "dyn-host" IPBlacklist.defaultList
      (.v4 167772161)).1 rfl).1,
   by decide,
   ((c8_match_resorts_by_hit_count c8blN "dyn-host" IPBlacklist.defaultList
      (.v4 167772161)).2 (by decide)).1⟩

/-- C10: a string argument that does not parse as an IP address makes
`IPBlacklist.is_match` raise (the string reaches the network-membership
test) whenever the network list is non-empty — it does not return `False`. -/
theorem c10_unparsable_string_raises (bl : IPBlacklist) (s : String)
    (hne : bl.networks ≠ []) (hp : ip_address? s = none) :
    bl.is_match (.raw s) = .error .attributeError := by
  obtain ⟨nets⟩ := bl
  simp only [IPBlacklist.is_match, hp]
  cases nets with
  | nil => exact absurd rfl hne
  | cons x xs => rfl

/-- Witness for C10: the default blacklist and the unparsable string
"hello". -/
theorem c10_unparsable_string_raises_witness :
    IPBlacklist.defaultList.networks ≠ [] ∧ ip_address? "hello" = none ∧
    IPBlacklist.defaultList.is_match (.raw "hello") = .error .attributeError :=
  ⟨by decide, by rfl,
   c10_unparsable_string_raises IPBlacklist.defaultList "hello" (by decide) (by rfl)⟩

/-! ## model.py -/

/-- `HostSource` from model.py (an `IntEnum`, values 1–5 in declaration
order). -/
inductive HostSource where
  | Generator
  | MX
  | NS
  | XFR
  | User
deriving DecidableEq, Repr

/-- Modelled from the spec: the current `Host` dataclass is missing from the
source tree (src/model.py is a stale revision whose `Host` lacks the
`added`, `last_contact`, `sysname` and `xfr` fields used by database.py and
has no default for `src`).  Fields and defaults follow spec §3 and §4.4
(`src` provenance defaults to `Generator`, which is what
`Host(name=..., addr=...)` in generator.py relies on). -/
structure Host where
  host_id : Int := -1
  name : String
  addr : IPAddr
  src : HostSource := .Generator
  added : Option Nat := none
  last_contact : Option Nat := none
  sysname : String := ""
  location : String := ""
  xfr : Bool := false

/-- Join character-list labels with dots. -/
def joinDots (parts : List (List Char)) : List Char :=
  (parts.intersperse ['.']).flatten

/-- `Host.zone` from model.py: the first capture of
`^[^.]+[.](.*)$` against the host's name — everything after the first dot,
provided the first label is non-empty — else the empty string. -/
def Host.zone (h : Host) : String :=
  match splitCh '.' h.name.data with
  | [] => ""
  | [_] => ""
  | first :: rest => if first.isEmpty then "" else ⟨joinDots rest⟩

/-- Modelled from the spec: `Host.astr` (the address as a string), used by
the scanner; the stale src/model.py has it only on `ScanTarget`. -/
def Host.astr (h : Host) : String :=
  match h.addr with
  | .v4 n => toString n
  | .v6 n => toString n

/-! ## generator.py -/

/-- One random draw of `generate_ip`: four octets from `randint(0, 255)`. -/
structure Octets where
  o1 : Nat
  o2 : Nat
  o3 : Nat
  o4 : Nat
deriving DecidableEq, Repr

/-- The 32-bit value of the drawn address. -/
def Octets.toNat (o : Octets) : Nat :=
  ((o.o1 * 256 + o.o2) * 256 + o.o3) * 256 + o.o4

/-- `astr = ".".join([str(x) for x in octets])`. -/
def Octets.dotted (o : Octets) : String :=
  toString o.o1 ++ "." ++ toString o.o2 ++ "." ++ toString o.o3 ++ "." ++ toString o.o4

/-- The body of `HostGenerator.generate_ip` (v6=False) from generator.py,
driven by the stream of random draws, inside one read-write cache
transaction on the IPCache (whose TTL is `none`: `get_db` is called without
a ttl).  Per iteration: draw octets, form `astr` and
`addr = ip_address(astr)`, then evaluate
`if self.bl_addr.is_match(addr) or astr not in tx: tx[astr] = "1"`
(keeping and returning `addr`) `else: addr = None` (retrying).  The `or`
short-circuits: when the blacklist matches, the cache is not consulted.
Runs out of draws ⇒ `none` (a model artifact standing for non-termination;
the unreachable cache-layer errors also map to `none`). -/
def generate_ip_loop (now : Nat) (ttl : Option Nat) :
    List Octets → CacheStore → IPBlacklist →
    Option (IPAddr × List Octets × CacheStore × IPBlacklist)
  | [], _, _ => none
  | d :: rest, store, bl =>
    let astr := d.dotted
    let addr := IPAddr.v4 d.toNat
    let (m, bl') := bl.is_match_addr addr
    if m then
      match Tx.setitem true now ttl store astr "1" with
      | .ok store' => some (addr, rest, store', bl')
      | .error _ => none
    else
      match Tx.containsKey true now store astr with
      | .error _ => none
      | .ok (c, store') =>
        if !c then
          match Tx.setitem true now ttl store' astr "1" with
          | .ok store'' => some (addr, rest, store'', bl')
          | .error _ => none
        else generate_ip_loop now ttl rest store' bl'

/-- The first (and repeated) draw for C1: 10.0.0.1, inside 10.0.0.0/8. -/
def c1draw : Octets := ⟨10, 0, 0, 1⟩

/-- C1: the address 10.0.0.1 *is* matched by the default IP blacklist, yet
`generate_ip` returns it (the inverted test at generator.py:79 inserts and
returns whenever the blacklist matches), and a second call drawing the same
address returns it *again* even though it is already recorded in the
IPCache — both halves of the claimed invariant fail. -/
theorem c1_generate_ip_returns_blacklisted :
    (IPBlacklist.defaultList.is_match_addr (.v4 c1draw.toNat)).fst = true ∧
    ∃ st1 bl1, generate_ip_loop 0 none [c1draw] [] IPBlacklist.defaultList
        = some (.v4 c1draw.toNat, [], st1, bl1) ∧
      ("10.0.0.1", CacheItem.mk "1" none) ∈ st1 ∧
      ∃ st2 bl2, generate_ip_loop 0 none [c1draw] st1 bl1
        = some (.v4 c1draw.toNat, [], st2, bl2) := by
  refine ⟨by decide, _, _, rfl, by decide, _, _, rfl⟩

/-- The reverse-DNS oracle driving `HostGenerator.resolve_name`: the result
of the PTR lookup for an address, `none` standing for the
NXDOMAIN/NoAnswer/Timeout/NoNameservers/odd-rcode outcomes. -/
structure GenEnv where
  resolve : IPAddr → Option String

/-- `HostGenerator.generate_host` from generator.py: loop — `generate_ip()`
(a fresh cache transaction each time, same persistent store), resolve the
address, and if the name blacklist matches the resolved name discard it and
loop; otherwise return `Host(name=name, addr=addr)`.  The outer loop is
driven by `fuel`; `none` is the model artifact for non-termination. -/
def generate_host_loop (env : GenEnv) (now : Nat) (ttl : Option Nat) :
    Nat → List Octets → CacheStore → IPBlacklist → NameBlacklist →
    Option (Host × List Octets × CacheStore × IPBlacklist × NameBlacklist)
  | 0, _, _, _, _ => none
  | fuel + 1, draws, store, blA, blN =>
    match generate_ip_loop now ttl draws store blA with
    | none => none
    | some (addr, draws', store', blA') =>
      match env.resolve addr with
      | none => generate_host_loop env now ttl fuel draws' store' blA' blN
      | some name =>
        let (m, blN') := blN.is_match name
        if m then generate_host_loop env now ttl fuel draws' store' blA' blN'
        else some ({ name := name, addr := addr }, draws', store', blA', blN')

/-- A missed name-blacklist lookup returns the blacklist unchanged. -/
theorem NameBlacklist.is_match_false_eq (bl : NameBlacklist) (name : String)
    (h : (bl.is_match name).fst = false) : bl.is_match name = (false, bl) := by
  unfold NameBlacklist.is_match at *
  cases hscan : scanBump (fun it => it.pat name) NameBlacklistItem.bump bl.patterns with
  | none => rfl
  | some l => rw [hscan] at h; simp at h

/-- C7: whenever `generate_host` returns, the result is a `Host` whose
`src` is `Generator` (the dataclass default), whose `name` is the string
the resolver returned for its address and is not matched by the name
blacklist (in its state at return, which the final missed lookup left
unchanged), and whose `addr` is the address produced by a `generate_ip`
run. -/
theorem c7_generate_host_shape (env : GenEnv) (now : Nat) (ttl : Option Nat)
    (fuel : Nat) (draws : List Octets) (store : CacheStore)
    (blA : IPBlacklist) (blN : NameBlacklist)
    (h : Host) (draws' : List Octets) (store' : CacheStore)
    (blA' : IPBlacklist) (blN' : NameBlacklist)
    (hres : generate_host_loop env now ttl fuel draws store blA blN
      = some (h, draws', store', blA', blN')) :
    h.src = HostSource.Generator ∧
    env.resolve h.addr = some h.name ∧
    (blN'.is_match h.name).fst = false ∧
    ∃ ds st ba rest st2 ba2,
      generate_ip_loop now ttl ds st ba = some (h.addr, rest, st2, ba2) := by
  induction fuel generalizing draws store blA blN with
  | zero => simp [generate_host_loop] at hres
  | succ n ih =>
    rw [generate_host_loop] at hres
    cases hip : generate_ip_loop now ttl draws store blA with
    | none => rw [hip] at hres; exact absurd hres (by simp)
    | some r =>
      obtain ⟨addr, ds1, st1, ba1⟩ := r
      rw [hip] at hres
      dsimp only at hres
      cases hname : env.resolve addr with
      | none =>
        rw [hname] at hres
        exact ih ds1 st1 ba1 blN hres
      | some name =>
        rw [hname] at hres
        dsimp only at hres
        cases hm : (blN.is_match name).fst with
        | true =>
          rw [show blN.is_match name = (true, (blN.is_match name).snd) from
            by rw [← hm]] at hres
          exact ih ds1 st1 ba1 (blN.is_match name).snd hres
        | false =>
          rw [NameBlacklist.is_match_false_eq blN name hm] at hres
          dsimp only at hres
          rw [if_neg Bool.false_ne_true] at hres
          simp only [Option.some.injEq, Prod.mk.injEq] at hres
          obtain ⟨hh, hd, hst, hba, hbn⟩ := hres
          subst hh hbn
          exact ⟨rfl, hname, hm, draws, store, blA, ds1, st1, ba1, hip⟩

/-- A resolver oracle that answers every PTR query with one fixed name. -/
def c7env : GenEnv := ⟨fun _ => some "www.example.com"⟩

/-- An empty name blacklist for the C7 witness run. -/
def c7blN : NameBlacklist := ⟨[]⟩

/-- Witness for C7: one concrete run (draw 11.22.33.44, resolver answers
"www.example.com", empty name blacklist) reaches the conclusion through
`c7_generate_host_shape`. -/
theorem c7_generate_host_shape_witness :
    ∃ h d s a n,
      generate_host_loop c7env 0 none 1 [⟨11, 22, 33, 44⟩] []
          IPBlacklist.defaultList c7blN = some (h, d, s, a, n) ∧
      (h.src = HostSource.Generator ∧
       c7env.resolve h.addr = some h.name ∧
       (n.is_match h.name).fst = false ∧
       ∃ ds st ba rest st2 ba2,
         generate_ip_loop 0 none ds st ba = some (h.addr, rest, st2, ba2)) :=
  ⟨_, _, _, _, _, rfl,
   c7_generate_host_shape c7env 0 none 1 [⟨11, 22, 33, 44⟩] []
     IPBlacklist.defaultList c7blN _ _ _ _ _ rfl⟩

/-! ## database.py -/

/-- Stable ascending insertion by a natural-number key (used to model SQL
`ORDER BY`). -/
def insertAscBy (key : α → Nat) (x : α) : List α → List α
  | [] => [x]
  | y :: ys => if key x ≤ key y then x :: y :: ys else y :: insertAscBy key x ys

/-- Stable ascending sort by a natural-number key. -/
def sortAscBy (key : α → Nat) (l : List α) : List α :=
  l.foldr (insertAscBy key) []

/-- A row of the `host` table (see the `qinit` DDL in database.py). -/
structure HostRow where
  id : Nat
  name : String
  addr : String
  src : Nat
  added : Nat
  last_contact : Option Nat := none
  sysname : String := ""
  location : String := ""
  xfr : Bool := false
deriving DecidableEq, Repr

/-- `qdb[Query.HostGetNoXFR]` from database.py, verbatim.  Note the comma
after the final column `location`, directly before `FROM`. -/
def qdbHostGetNoXFR : String :=
  "\nSELECT\n    id,\n    addr,\n    src,\n    name,\n    added,\n    last_contact,\n    sysname,\n    location,\nFROM host\nWHERE xfr = 0\nORDER BY added\nLIMIT ?\n    "

/-- `qdb[Query.HostGetAll]` from database.py, verbatim (an intact query,
kept as a control for the syntax check below). -/
def qdbHostGetAll : String :=
  "\nSELECT\n    id,\n    addr,\n    src,\n    name,\n    added,\n    last_contact,\n    sysname,\n    location,\n    xfr\nFROM host\n"

/-- Lexing as far as SQLite's grammar for a select list needs: whitespace
separates tokens and a comma is a token of its own. -/
def sqlTokens (q : String) : List String :=
  let step : List (List Char) × List Char → Char → List (List Char) × List Char :=
    fun acc c =>
      let (toks, cur) := acc
      if c = ' ' ∨ c = '\n' ∨ c = '\t' then
        (if cur.isEmpty then toks else cur.reverse :: toks, [])
      else if c = ',' then
        ([','] :: (if cur.isEmpty then toks else cur.reverse :: toks), [])
      else (toks, c :: cur)
  let (toks, cur) := q.data.foldl step ([], [])
  ((if cur.isEmpty then toks else cur.reverse :: toks).reverse).map (fun l => ⟨l⟩)

/-- The tokens of a select list up to the `FROM` keyword (`none` when no
`FROM` follows). -/
def colsUntilFrom : List String → Option (List String)
  | [] => none
  | "FROM" :: _ => some []
  | t :: rest => (colsUntilFrom rest).map (t :: ·)

/-- SQLite's shape for a result-column list: one column name, or a column
name, a comma and another such list.  A trailing comma (a comma directly
followed by `FROM`) is a syntax error. -/
def colListOk : List String → Bool
  | [] => false
  | [","] => false
  | [_] => true
  | "," :: _ => false
  | _ :: "," :: rest => colListOk rest
  | _ :: _ :: _ => false

/-- Preparing a `SELECT ... FROM ...` statement succeeds only when the
select list between `SELECT` and `FROM` is well-formed. -/
def selectStmtOk (q : String) : Bool :=
  match sqlTokens q with
  | "SELECT" :: rest =>
    match colsUntilFrom rest with
    | some cols => colListOk cols
    | none => false
  | _ => false

/-- The result set the `HostGetNoXFR` query describes: hosts with `xfr = 0`,
ordered by ascending `added`, at most `cnt` of them. -/
def hostGetNoXFRrows (db : List HostRow) (cnt : Nat) : List HostRow :=
  (sortAscBy (fun h => h.added) (db.filter (fun h => !h.xfr))).take cnt

/-- `Database.host_get_no_xfr` from database.py: `cur.execute` first
prepares `qdb[Query.HostGetNoXFR]`; a statement that does not parse raises
`sqlite3.OperationalError` before any row is produced. -/
def Database.host_get_no_xfr (db : List HostRow) (cnt : Nat) :
    Except PyErr (List HostRow) :=
  if selectStmtOk qdbHostGetNoXFR then .ok (hostGetNoXFRrows db cnt)
  else .error .operationalError

/-- Control: the syntax check accepts the intact `HostGetAll` query, so the
failure below is the trailing comma's, not the checker's. -/
theorem hostGetAll_query_parses : selectStmtOk qdbHostGetAll = true := by decide

/-- C2: `Database.host_get_no_xfr` never returns a row list — its SQL text
has a trailing comma in the select list (`location,` directly before
`FROM`), so statement preparation raises `OperationalError` on every call,
for every database state and every `n`. -/
theorem c2_host_get_no_xfr_raises (db : List HostRow) (cnt : Nat) :
    Database.host_get_no_xfr db cnt = .error .operationalError := by
  unfold Database.host_get_no_xfr
  rw [show selectStmtOk qdbHostGetNoXFR = false from by decide]
  rfl

/-! ## xfr.py -/

/-- A row of the `xfr` table (`name` is UNIQUE; `started`/`finished` default
to 0, "zero = not yet"; `status` defaults to false). -/
structure XFRRow where
  zone_id : Nat
  name : String
  added : Nat
  started : Nat := 0
  finished : Nat := 0
  status : Bool := false
deriving DecidableEq, Repr

/-- The `xfr` table. -/
abbrev XfrDB := List XFRRow

/-- `Database.xfr_add` from database.py: `INSERT INTO xfr (name, added)`.
A duplicate zone name violates the UNIQUE constraint and raises
`sqlite3.IntegrityError` (which is *not* a `DBError`); otherwise the row is
inserted and its fresh id recorded on the XFR object. -/
def Database.xfr_add (db : XfrDB) (name : String) (now : Nat) :
    Except PyErr (XfrDB × Nat) :=
  if db.any (fun r => r.name == name) then .error .integrityError
  else
    let zid := db.length + 1
    .ok (db ++ [{ zone_id := zid, name := name, added := now }], zid)

/-- `Database.xfr_finish` from database.py: `UPDATE xfr SET finished = ?,
status = ? WHERE id = ?`. -/
def Database.xfr_finish (db : XfrDB) (zid : Nat) (now : Nat) (status : Bool) : XfrDB :=
  db.map (fun r => if r.zone_id == zid then { r with finished := now, status := status } else r)

/-- The outcome of `XFRClient.resolve_name` for one name server: an
address, `None` (only `NXDOMAIN` is caught there), or a propagating DNS
exception. -/
inductive ResolveOutcome where
  | found (addr : String)
  | nxdomain
  | raised (e : PyErr)

/-- The network oracle for `XFRClient.perform_xfr`: the name-server list
`lookup_ns` produces for the zone (it catches every resolver failure and
may return `[]`), the per-server resolution outcome, and the result of
`attempt_xfr` (which catches `EOFError`/`OSError`/`DNSException` itself and
returns a success boolean). -/
structure XFREnv where
  nameservers : List String
  resolve : String → ResolveOutcome
  axfr : String → String → Bool

/-- The name-server loop of `XFRClient.perform_xfr`: resolve each server;
`None` skips it; on the first successful `attempt_xfr` the row is finished
with `True` and the loop breaks; when the list is exhausted the accumulated
`status` (still `False`) is returned and the row is *not* touched. -/
def perform_xfr_loop (env : XFREnv) (now : Nat) (zone : String) (zid : Nat)
    (db : XfrDB) : List String → (Except PyErr Bool) × XfrDB
  | [] => (.ok false, db)
  | ns :: rest =>
    match env.resolve ns with
    | .raised e => (.error e, db)
    | .nxdomain => perform_xfr_loop env now zone zid db rest
    | .found addr =>
      if env.axfr addr zone then (.ok true, Database.xfr_finish db zid now true)
      else perform_xfr_loop env now zone zid db rest

/-- `XFRClient.perform_xfr` from xfr.py: first `xfr_add` (its
`IntegrityError` for a pre-existing zone is *not* caught — the `except`
clause only handles `DBError`, which the method answers by falling through
to `return status` with `status = False`); then the name-server lookup
(no servers ⇒ `return False` without finishing the row); then the server
loop. -/
def XFRClient.perform_xfr (env : XFREnv) (now : Nat) (db : XfrDB)
    (zone : String) : (Except PyErr Bool) × XfrDB :=
  match Database.xfr_add db zone now with
  | .error e => if e = .dbError then (.ok false, db) else (.error e, db)
  | .ok (db1, zid) =>
    if env.nameservers.isEmpty then (.ok false, db1)
    else perform_xfr_loop env now zone zid db1 env.nameservers

/-- The per-host body of `XFRProcessor._feeder` from xfr.py: derive the
host's zone, `xfr_add` it and set the host's xfr flag in one transaction,
push the zone on success; a `DBError` is caught and the host skipped, but
`sqlite3.IntegrityError` (duplicate zone) is not caught — it propagates and
the transaction is rolled back. -/
def XFRProcessor.feeder_process_host (db : XfrDB) (h : Host) (now : Nat) :
    (Except PyErr (Option String)) × XfrDB × Host :=
  match Database.xfr_add db h.zone now with
  | .error e =>
    if e = .dbError then (.ok none, db, h)
    else (.error e, db, h)
  | .ok (db1, _zid) => (.ok (some h.zone), db1, { h with xfr := true })

theorem find?_map_of_pred (f : α → α) (p : α → Bool)
    (hf : ∀ x, p (f x) = p x) (l : List α) :
    (l.map f).find? p = (l.find? p).map f := by
  induction l with
  | nil => rfl
  | cons x xs ih =>
    cases hx : p x with
    | true => simp [List.find?_cons, hf, hx]
    | false => simp [List.find?_cons, hf, hx, ih]

theorem find?_append_right_of_any_false (p : α → Bool) (l1 l2 : List α)
    (h : l1.any p = false) : (l1 ++ l2).find? p = l2.find? p := by
  induction l1 with
  | nil => rfl
  | cons x xs ih =>
    simp only [List.any_cons, Bool.or_eq_false_iff] at h
    simp [List.find?_cons, h.1, ih h.2]

/-- What the name-server loop guarantees about the tracked row: starting
from a database whose first `zone`-named row is the freshly inserted one
(`finished = 0`, `status = false`, id `zid`), a `.ok st` outcome leaves that
row with `status = st`, `finished = now` when `st = true` and
`finished = 0` when `st = false`. -/
theorem perform_xfr_loop_row (env : XFREnv) (now : Nat) (zone : String)
    (zid : Nat) (db : XfrDB) (nss : List String) (r : XFRRow)
    (st : Bool) (db' : XfrDB)
    (hfind : db.find? (fun x => x.name == zone) = some r)
    (hfin : r.finished = 0) (hst : r.status = false) (hid : r.zone_id = zid)
    (hl : perform_xfr_loop env now zone zid db nss = (.ok st, db')) :
    ∃ r', db'.find? (fun x => x.name == zone) = some r' ∧ r'.status = st ∧
      (st = true → r'.finished = now) ∧ (st = false → r'.finished = 0) := by
  induction nss with
  | nil =>
    rw [perform_xfr_loop] at hl
    obtain ⟨h1, h2⟩ := Prod.mk.injEq .. ▸ hl
    obtain rfl : false = st := Except.ok.inj h1
    exact ⟨r, h2 ▸ hfind, hst, by simp, fun _ => hfin⟩
  | cons ns rest ih =>
    rw [perform_xfr_loop] at hl
    cases hr : env.resolve ns with
    | raised e => rw [hr] at hl; exact absurd hl (by simp)
    | nxdomain => rw [hr] at hl; exact ih hl
    | found addr =>
      rw [hr] at hl
      dsimp only at hl
      by_cases hax : env.axfr addr zone
      · rw [if_pos hax] at hl
        obtain ⟨h1, h2⟩ := Prod.mk.injEq .. ▸ hl
        obtain rfl : true = st := Except.ok.inj h1
        refine ⟨{ r with finished := now, status := true }, ?_, rfl, fun _ => rfl, by simp⟩
        rw [← h2]
        unfold Database.xfr_finish
        rw [find?_map_of_pred _ _ (fun x => by by_cases hz : x.zone_id == zid <;> simp [hz]) db,
          hfind]
        simp [hid]
      · rw [if_neg hax] at hl
        exact ih hl

/-- C5 (amended): whenever `perform_xfr` *returns* (rather than raises),
the zone's row ends with `status` equal to the returned boolean; on success
it has been marked finished (`finished = now`), but on failure no
`xfr_finish` call happens and the row remains unfinished
(`finished = 0`). -/
theorem c5_perform_xfr_row_state (env : XFREnv) (now : Nat) (db : XfrDB)
    (zone : String) (st : Bool) (db' : XfrDB)
    (h : XFRClient.perform_xfr env now db zone = (.ok st, db')) :
    ∃ r, db'.find? (fun x => x.name == zone) = some r ∧ r.status = st ∧
      (st = true → r.finished = now) ∧ (st = false → r.finished = 0) := by
  unfold XFRClient.perform_xfr at h
  cases hadd : Database.xfr_add db zone now with
  | error e =>
    rw [hadd] at h
    unfold Database.xfr_add at hadd
    by_cases hany : db.any (fun r => r.name == zone)
    · rw [if_pos hany] at hadd
      obtain rfl : PyErr.integrityError = e := Except.error.inj hadd
      dsimp only at h
      rw [if_neg (by decide)] at h
      exact absurd (congrArg Prod.fst h) (by simp)
    · rw [if_neg hany] at hadd
      exact absurd hadd (by simp)
  | ok p =>
    obtain ⟨db1, zid⟩ := p
    rw [hadd] at h
    unfold Database.xfr_add at hadd
    by_cases hany : db.any (fun r => r.name == zone)
    · rw [if_pos hany] at hadd
      exact absurd hadd (by simp)
    · rw [if_neg hany] at hadd
      simp only [Except.ok.injEq, Prod.mk.injEq] at hadd
      obtain ⟨rfl, rfl⟩ := hadd
      dsimp only at h
      have hfind : (db ++ [({ zone_id := db.length + 1, name := zone, added := now } : XFRRow)]).find?
          (fun x => x.name == zone)
          = some ({ zone_id := db.length + 1, name := zone, added := now } : XFRRow) := by
        rw [find?_append_right_of_any_false _ _ _ (Bool.not_eq_true _ ▸ hany)]
        simp [List.find?_cons]
      by_cases hns : env.nameservers.isEmpty
      · rw [if_pos hns] at h
        obtain ⟨h1, h2⟩ := Prod.mk.injEq .. ▸ h
        obtain rfl : false = st := Except.ok.inj h1
        exact ⟨{ zone_id := db.length + 1, name := zone, added := now },
          h2 ▸ hfind, rfl, by simp, fun _ => rfl⟩
      · rw [if_neg hns] at h
        exact perform_xfr_loop_row env now zone _ _ _ _ st db' hfind rfl rfl rfl h

/-- An environment in which the zone has no reachable name servers. -/
def c5envNoNS : XFREnv := ⟨[], fun _ => .nxdomain, fun _ _ => false⟩

/-- Counterexample for C5: on a fresh zone whose name-server lookup comes
back empty (a DNS failure path), `perform_xfr` returns `False` but the
zone's row is *not* marked finished — `finished` stays 0 ("zero = not yet")
and no `xfr_finish(…, False)` call exists on any failure path. -/
theorem c5_counterexample :
    XFRClient.perform_xfr c5envNoNS 100 [] "example.com"
      = (.ok false, [{ zone_id := 1, name := "example.com", added := 100 }]) ∧
    ({ zone_id := 1, name := "example.com", added := 100 } : XFRRow).finished = 0 := by
  exact ⟨rfl, rfl⟩

/-- An environment whose single name server resolves and grants the AXFR. -/
def c5envOk : XFREnv :=
  ⟨["ns1.example.com"], fun _ => .found "192.0.2.200", fun _ _ => true⟩

/-- Witness for C5 (amended): a successful concrete run through
`c5_perform_xfr_row_state` — the transfer succeeds and the row is finished
with status true at the current time. -/
theorem c5_perform_xfr_row_state_witness :
    ∃ r, (XFRClient.perform_xfr c5envOk 100 [] "example.com").2.find?
        (fun x => x.name == "example.com") = some r ∧ r.status = true ∧
      (true = true → r.finished = 100) ∧ (true = false → r.finished = 0) :=
  c5_perform_xfr_row_state c5envOk 100 [] "example.com" true
    (XFRClient.perform_xfr c5envOk 100 [] "example.com").2 rfl

/-- The xfr table already holding a row for example.com. -/
def c6db : XfrDB := [{ zone_id := 1, name := "example.com", added := 50 }]

/-- An environment in which a transfer would succeed if attempted. -/
def c6env : XFREnv :=
  ⟨["ns1.example.com"], fun _ => .found "192.0.2.201", fun _ _ => true⟩

/-- Counterexample for C6: for a zone that already has an XFR row,
`perform_xfr` is *not* a no-op — its initial `xfr_add` violates the UNIQUE
constraint and the resulting `sqlite3.IntegrityError` propagates out of the
method (only `DBError` is caught), even in an environment where the
transfer itself would succeed. -/
theorem c6_counterexample :
    XFRClient.perform_xfr c6env 100 c6db "example.com"
      = (.error .integrityError, c6db) := by
  exact rfl

/-- C6 (amended): if the zone already has an XFR row, no second row is
created by either the feeder's or the client's `xfr_add` (the duplicate
insert fails and the table is returned unchanged) and the transfer is not
re-attempted — but instead of treating the pre-existing row as a no-op,
both the client and the feeder body propagate `IntegrityError`. -/
theorem c6_existing_row_not_noop (env : XFREnv) (now : Nat) (db : XfrDB)
    (zone : String) (h : Host)
    (hdup : db.any (fun r => r.name == zone) = true) (hz : h.zone = zone) :
    Database.xfr_add db zone now = .error .integrityError ∧
    XFRClient.perform_xfr env now db zone = (.error .integrityError, db) ∧
    XFRProcessor.feeder_process_host db h now = (.error .integrityError, db, h) := by
  have hadd : Database.xfr_add db zone now = .error .integrityError := by
    unfold Database.xfr_add
    rw [if_pos hdup]
  refine ⟨hadd, ?_, ?_⟩
  · unfold XFRClient.perform_xfr
    rw [hadd]
    dsimp only
    rw [if_neg (by decide)]
  · unfold XFRProcessor.feeder_process_host
    rw [hz, hadd]
    dsimp only
    rw [if_neg (by decide)]

/-- Witness for C6 (amended): the concrete duplicate zone "example.com"
with a host inside it. -/
theorem c6_existing_row_not_noop_witness :
    c6db.any (fun r => r.name == "example.com") = true ∧
    ({ name := "www.example.com", addr := .v4 333 } : Host).zone = "example.com" ∧
    (Database.xfr_add c6db "example.com" 100 = .error .integrityError ∧
     XFRClient.perform_xfr c6env 100 c6db "example.com" = (.error .integrityError, c6db) ∧
     XFRProcessor.feeder_process_host c6db { name := "www.example.com", addr := .v4 333 } 100
       = (.error .integrityError, c6db, { name := "www.example.com", addr := .v4 333 })) :=
  ⟨by decide, by rfl,
   c6_existing_row_not_noop c6env 100 c6db "example.com"
     { name := "www.example.com", addr := .v4 333 } (by decide) (by rfl)⟩

/-! ## scanner.py -/

/-- `ScanReply` from scanner.py. -/
structure ScanReply where
  status : Bool
  response : String
deriving DecidableEq, Repr

/-- Modelled from the spec: the `Service` dataclass (spec §3) is part of the
missing current model.py; fields follow the `svc` DDL and
`Database.service_add`. -/
structure Service where
  sv_id : Int := -1
  host_id : Int
  port : Nat
  added : Nat
  response : Option String := none
deriving DecidableEq, Repr

/-- `ScanRequest` from scanner.py (its `__post_init__` asserts
`0 < port < 65536`). -/
structure ScanRequest where
  host : Host
  port : Nat

/-- `ScanResult` from scanner.py. -/
structure ScanResult where
  host : Host
  result : Service

/-- Socket-level failures the generic TCP probes can see. -/
inductive TcpErr where
  | connectionError
  | timeoutError
deriving DecidableEq, Repr

/-- Failures of `requests.head`. -/
inductive HttpErr where
  | connectionError
  | requestException
deriving DecidableEq, Repr

/-- The network oracle for the scanner's probes. -/
structure NetEnv where
  tcp_connect : String → Nat → Except TcpErr String
  http_head : String → Except HttpErr (Option String)
  finger : String → Nat → Except TcpErr String
  telnet : String → Nat → Except TcpErr String
  dns_resolve : String → String → String → String → Except Unit (Option String)

/-- `Scanner.scan_tcp_generic` from scanner.py: open a TCP connection, read
up to 256 bytes and report them; `ConnectionError` and `TimeoutError` are
caught and yield a failed reply. -/
def Scanner.scan_tcp_generic (env : NetEnv) (addr : String) (port : Nat) :
    Except PyErr ScanReply :=
  if ¬ (0 < port ∧ port < 65536) then .error .valueError
  else
    match env.tcp_connect addr port with
    | .ok banner => .ok ⟨true, banner⟩
    | .error .connectionError => .ok ⟨false, "ConnectionError"⟩
    | .error .timeoutError => .ok ⟨false, "TimeoutError"⟩

/-- `Scanner.scan_http` from scanner.py: `HEAD` on a URI built from the
hostname when one is given (https iff requested) and record the `Server`
response header — `response.headers["Server"]` raises `KeyError` when the
header is absent, and only `ConnectionError`/`RequestException` are
caught. -/
def Scanner.scan_http (env : NetEnv) (addr : String) (port : Nat)
    (hostname : Option String) (ssl : Bool) : Except PyErr ScanReply :=
  if ¬ (0 < port ∧ port < 65536) then .error .valueError
  else
    let schema := if ssl then "https" else "http"
    let uri :=
      match hostname with
      | some hn => schema ++ "://" ++ hn ++ ":" ++ toString port ++ "/"
      | none => schema ++ "://" ++ addr ++ ":" ++ toString port ++ "/"
    match env.http_head uri with
    | .ok (some server) => .ok ⟨true, server⟩
    | .ok none => .error .keyError
    | .error .connectionError => .ok ⟨false, "ConnectionError"⟩
    | .error .requestException => .ok ⟨false, "RequestException"⟩

/-- `Scanner.scan_dns` from scanner.py: point a fresh resolver at the
target and query `version.bind.` of type `TXT` in class `CH`; a non-empty
answer is recorded via `rrset[0].to_text()`, an empty one yields a failed
reply, and every `DNSException` is caught into a failed reply. -/
def Scanner.scan_dns (env : NetEnv) (addr : String) (port : Nat) :
    Except PyErr ScanReply :=
  if ¬ (0 < port ∧ port < 65536) then .error .valueError
  else
    match env.dns_resolve addr "version.bind." "TXT" "CH" with
    | .ok (some txt) => .ok ⟨true, txt⟩
    | .ok none => .ok ⟨false, ""⟩
    | .error _ => .ok ⟨false, "DNSException"⟩

/-- `Scanner.scan_finger` from scanner.py: send `"root\r\n"`, read 256
bytes; only `ConnectionError` is caught — a `TimeoutError` propagates (to
be caught by `scan_port`). -/
def Scanner.scan_finger (env : NetEnv) (addr : String) (port : Nat) :
    Except PyErr ScanReply :=
  if ¬ (0 < port ∧ port < 65536) then .error .valueError
  else
    match env.finger addr port with
    | .ok data => .ok ⟨true, data⟩
    | .error .connectionError => .ok ⟨false, "ConnectionError"⟩
    | .error .timeoutError => .error .timeoutError

/-- `Scanner.scan_telnet` from scanner.py: read until the sentinel or the
timeout; `ConnectionError` yields a failed reply and `TimeoutError` yields
`ScanReply(False, "Timeout")`. -/
def Scanner.scan_telnet (env : NetEnv) (addr : String) (port : Nat) :
    Except PyErr ScanReply :=
  if ¬ (0 < port ∧ port < 65536) then .error .valueError
  else
    match env.telnet addr port with
    | .ok data => .ok ⟨true, data⟩
    | .error .connectionError => .ok ⟨false, "ConnectionError"⟩
    | .error .timeoutError => .ok ⟨false, "Timeout"⟩

/-- `Scanner.scan_port` from scanner.py: dispatch on the requested port —
`21|22|25|110|143|220 → scan_tcp_generic`, `80|443|8080 → scan_http`
(https iff 443), `79 → scan_finger`, `23|3270|9023 → scan_telnet`, and
*any other port — including 53 — returns `None` without scanning*.  A
successful reply is wrapped into a `Service`/`ScanResult`; a failed reply
yields `None`; a `TimeoutError` is caught into `None`. -/
def Scanner.scan_port (env : NetEnv) (now : Nat) (req : ScanRequest) :
    Except PyErr (Option ScanResult) :=
  let replyE : Except PyErr (Option ScanReply) :=
    match req.port with
    | 21 | 22 | 25 | 110 | 143 | 220 =>
      (Scanner.scan_tcp_generic env req.host.astr req.port).map some
    | 80 | 443 | 8080 =>
      (Scanner.scan_http env req.host.astr req.port (some req.host.name)
        (req.port == 443)).map some
    | 79 => (Scanner.scan_finger env req.host.astr req.port).map some
    | 23 | 3270 | 9023 => (Scanner.scan_telnet env req.host.astr req.port).map some
    | _ => .ok none
  match replyE with
  | .error .timeoutError => .ok none
  | .error e => .error e
  | .ok none => .ok none
  | .ok (some reply) =>
    if reply.status then
      .ok (some { host := req.host,
                  result := { host_id := req.host.host_id, port := req.port,
                              added := now, response := some reply.response } })
    else .ok none

/-- The body of one `Scanner._scan_worker` work item from scanner.py: the
request is scanned (`res = self.scan_port(req)`) and then the worker runs
`if res is None: pass` — in either case the result is discarded and nothing
is put on the result queue, which is returned unchanged. -/
def Scanner.scan_worker_iteration (env : NetEnv) (now : Nat)
    (req : ScanRequest) (resQ : List ScanResult) :
    Except PyErr (List ScanResult) :=
  match Scanner.scan_port env now req with
  | .error e => .error e
  | .ok _res => .ok resQ

/-- `Database.service_add` from database.py: `INSERT INTO svc` — the
`UNIQUE (host_id, port)` violation (and any other `sqlite3.Error`) is
wrapped into a `DBError`; otherwise the row is appended with a fresh id. -/
def Database.service_add (svcs : List Service) (svc : Service) :
    Except PyErr (List Service) :=
  if svcs.any (fun s => s.host_id == svc.host_id && s.port == svc.port) then
    .error .dbError
  else .ok (svcs ++ [{ svc with sv_id := Int.ofNat svcs.length + 1 }])

/-- The drain phase of `Scanner._gatherer` from scanner.py: insert the
`Service` of every queued `ScanResult` into the store, swallowing
`DBError`. -/
def Scanner.gatherer_drain (resQ : List ScanResult) (store : List Service) :
    List Service :=
  resQ.foldl (fun st r =>
    match Database.service_add st r.result with
    | .ok st' => st'
    | .error _ => st) store

/-- A network in which TCP port 21 answers with a banner. -/
def c3env : NetEnv :=
  { tcp_connect := fun _ _ => .ok "220 test-banner"
  , http_head := fun _ => .error .connectionError
  , finger := fun _ _ => .error .connectionError
  , telnet := fun _ _ => .error .connectionError
  , dns_resolve := fun _ _ _ _ => .ok none }

/-- A scan request for port 21 of a known host. -/
def c3req : ScanRequest :=
  { host := { host_id := 7, name := "ftp.example.com", addr := .v4 2071690107 }
  , port := 21 }

/-- C3: with a probe that succeeds (the banner "220 test-banner" comes
back), `scan_port` does produce a `ScanResult` — but the worker's loop body
discards it (`if res is None: pass` and nothing else), so the result queue
stays empty and the gatherer, draining that queue, inserts no `Service`
row: the store is unchanged. -/
theorem c3_scan_result_dropped :
    Scanner.scan_port c3env 5 c3req
      = .ok (some { host := c3req.host
                  , result := { host_id := 7, port := 21, added := 5
                              , response := some "220 test-banner" } }) ∧
    Scanner.scan_worker_iteration c3env 5 c3req [] = .ok [] ∧
    Scanner.gatherer_drain [] [] = [] := by
  exact ⟨rfl, rfl, rfl⟩

/-- A network whose DNS oracle would answer the CHAOS `version.bind.` TXT
query, while every other probe fails. -/
def c4env : NetEnv :=
  { tcp_connect := fun _ _ => .error .connectionError
  , http_head := fun _ => .ok none
  , finger := fun _ _ => .error .connectionError
  , telnet := fun _ _ => .error .connectionError
  , dns_resolve := fun _ _ _ _ => .ok (some "9.8.7") }

/-- A scan request for port 53. -/
def c4req : ScanRequest :=
  { host := { host_id := 3, name := "ns.example.com", addr := .v4 3325256757 }
  , port := 53 }

/-- Counterexample for C4: a port-53 request is *not* dispatched to
`scan_dns` — `scan_port` returns `None` (53 falls into the wildcard arm) —
even though `scan_dns` against the same oracle succeeds and records the
answer. -/
theorem c4_counterexample :
    Scanner.scan_port c4env 5 c4req = .ok none ∧
    Scanner.scan_dns c4env "198.51.100.53" 53 = .ok ⟨true, "9.8.7"⟩ := by
  exact ⟨rfl, rfl⟩

/-- C4 (amended): `scan_port` has no arm for port 53 and returns `None`
without probing, for every environment and request; the (unreached)
`scan_dns` method itself queries `version.bind.` of type `TXT` in class
`CH` against the target and records the answer text of a successful
reply. -/
theorem c4_port53_not_dispatched :
    (∀ (env : NetEnv) (now : Nat) (req : ScanRequest), req.port = 53 →
      Scanner.scan_port env now req = .ok none) ∧
    (∀ (env : NetEnv) (addr ans : String),
      env.dns_resolve addr "version.bind." "TXT" "CH" = .ok (some ans) →
      Scanner.scan_dns env addr 53 = .ok ⟨true, ans⟩) := by
  constructor
  · intro env now req hp
    obtain ⟨host, port⟩ := req
    dsimp only at hp
    subst hp
    rfl
  · intro env addr ans h
    unfold Scanner.scan_dns
    rw [if_neg (by decide : ¬ ¬ (0 < 53 ∧ 53 < 65536)), h]

/-- Witness for C4 (amended): the concrete request `c4req` and oracle
`c4env`. -/
theorem c4_port53_not_dispatched_witness :
    c4req.port = 53 ∧
    c4env.dns_resolve "198.51.100.53" "version.bind." "TXT" "CH" = .ok (some "9.8.7") ∧
    Scanner.scan_port c4env 5 c4req = .ok none ∧
    Scanner.scan_dns c4env "198.51.100.53" 53 = .ok ⟨true, "9.8.7"⟩ :=
  ⟨rfl, rfl, c4_port53_not_dispatched.1 c4env 5 c4req rfl,
   c4_port53_not_dispatched.2 c4env "198.51.100.53" "9.8.7" rfl⟩
